import Mathlib

/-!
# Verification of the pixelQR persistence gateway and notification center

Shallow embedding of `src/js/databaseManager.js`, `src/js/export-manager.js`
(the `NotificationManager` part) and `src/js/main.js` of the pixelQR
repository, together with proofs of the specified properties.

Modelling conventions:
* `localStorage` is modelled by `LocalStore`: the keys actually used by the
  code are the per-record slots `pixelQR_qrcode_<id>`, the index list
  `pixelQR_saved_codes`, and the credential `pixelQR_github_access_token`.
  A slot key is determined by the JavaScript interpolation of the record's
  `id` field, so two records with the same (possibly `undefined`) id share a
  slot; the key is therefore modelled as `Option Nat` (`none` standing for
  the interpolated string `"undefined"`).
* JSON round-trips of well-formed record objects are the identity, so slot
  and index values are stored as structured `QRRecord`s rather than strings.
* Timers (`setTimeout`) become explicit events: a pending timer is a field of
  the state and its callback is a function applied when the timer fires.
* The simulated remote backend (`GitHub`) cannot fail in the shipped code
  except by a thrown exception inside the `try` block; the outcome of the
  attempt is abstracted into a `RemoteOutcome` parameter.
* DOM construction, styling and download plumbing are side effects outside
  the observable state of the claims and are omitted.
-/

namespace PixelQR

/-- `Config.UI.NOTIFICATION_DURATION` from `config.js`. -/
def notificationDuration : Nat := 3000

/-- `Config.VERSION` from `config.js`. -/
def configVersion : String := "1.0.0"

/-- A saved QR-code record as produced by `saveQRCode` in `main.js` and
stored as JSON in `localStorage` (spec §6 "Persisted local record shape").
`id = none` models a record whose `id` field is missing/`undefined`;
JavaScript treats both a missing id and the number `0` as falsy. -/
structure QRRecord where
  id : Option Nat
  content : String
  size : Nat
  errorCorrection : String
  foregroundColor : String
  backgroundColor : String
  timestamp : String
  name : String
deriving DecidableEq, Repr

/-- The `localStorage` key space used by `databaseManager.js`:
`slots` are the `pixelQR_qrcode_<id>` entries (keyed by the interpolated id),
`savedCodes` is the `pixelQR_saved_codes` JSON list (`none` = key absent),
`token` is the `pixelQR_github_access_token` credential (`none` = absent). -/
structure LocalStore where
  slots : List (Option Nat × QRRecord)
  savedCodes : Option (List QRRecord)
  token : Option String
deriving DecidableEq, Repr

/-- An empty `localStorage`. -/
def emptyStore : LocalStore := { slots := [], savedCodes := none, token := none }

/-- `localStorage.setItem` on a `qrcode_<id>` slot: overwrite the entry with
that key, or append a new entry (new keys enumerate last). -/
def setSlot (k : Option Nat) (v : QRRecord) :
    List (Option Nat × QRRecord) → List (Option Nat × QRRecord)
  | [] => [(k, v)]
  | (k', v') :: rest => if k' = k then (k, v) :: rest else (k', v') :: setSlot k v rest

/-- `localStorage.getItem` on a `qrcode_<id>` slot (with the JSON parse of
the stored text). -/
def getSlot (k : Option Nat) (s : LocalStore) : Option QRRecord :=
  (s.slots.find? (fun e => e.1 = k)).map (·.2)

/-- `localStorage.removeItem` on a `qrcode_<id>` slot.  `localStorage` keys
are unique, so removal is the map-style deletion of that key. -/
def removeSlot (k : Option Nat) (slots : List (Option Nat × QRRecord)) :
    List (Option Nat × QRRecord) :=
  slots.filter (fun e => e.1 ≠ k)

/-- Outcome of the simulated remote (`GitHub`) write/delete attempt: the
`try` block either completes (`ok`) or throws (`failure`). -/
inductive RemoteOutcome where
  | ok
  | failure
deriving DecidableEq, Repr

/-- `DatabaseManager.saveQRCodeToLocalStorage` (databaseManager.js:112-140):
writes the individual slot, then upserts the record into the
`saved_codes` index list — replacing the first entry with the same `id`
(`findIndex(code => code.id === qrData.id)`), else pushing — and reports
success. -/
def saveQRCodeToLocalStorage (qrData : QRRecord) (s : LocalStore) :
    Bool × LocalStore :=
  let slots' := setSlot qrData.id qrData s.slots
  let savedCodes := s.savedCodes.getD []
  let savedCodes' :=
    match savedCodes.findIdx? (fun code => code.id = qrData.id) with
    | some i => savedCodes.set i qrData
    | none => savedCodes ++ [qrData]
  (true, { s with slots := slots', savedCodes := some savedCodes' })

/-- `DatabaseManager.saveQRCodeToDatabase` (databaseManager.js:75-107):
with no access token, fall through to the local path; with a token, attempt
the (simulated) remote write and return `true` on completion, falling back
to the local path when the attempt throws. -/
def saveQRCodeToDatabase (remote : RemoteOutcome) (qrData : QRRecord)
    (s : LocalStore) : Bool × LocalStore :=
  match s.token with
  | none => saveQRCodeToLocalStorage qrData s
  | some _ =>
    match remote with
    | .ok => (true, s)
    | .failure => saveQRCodeToLocalStorage qrData s

/-- `DatabaseManager.deleteQRCodeFromLocalStorage` (databaseManager.js:272-294):
remove the individual slot; if the `saved_codes` key exists, rewrite it with
every record whose id differs (`code.id !== qrId`); report success. -/
def deleteQRCodeFromLocalStorage (qrId : Nat) (s : LocalStore) :
    Bool × LocalStore :=
  let slots' := removeSlot (some qrId) s.slots
  let savedCodes' :=
    match s.savedCodes with
    | none => none
    | some codes => some (codes.filter (fun code => code.id ≠ some qrId))
  (true, { s with slots := slots', savedCodes := savedCodes' })

/-- The export artifact (spec §6 "Export artifact shape"):
`{version, exportDate, qrCodes}`. -/
structure ExportData where
  version : String
  exportDate : String
  qrCodes : List QRRecord
deriving DecidableEq, Repr

/-- `DatabaseManager.exportAllQRCodes` (databaseManager.js:340-376): collect
every `qrcode_`-prefixed slot's parsed value, in key-enumeration order, into
the artifact together with `Config.VERSION` and the export date. -/
def exportAllQRCodes (now : String) (s : LocalStore) : ExportData :=
  { version := configVersion
    exportDate := now
    qrCodes := s.slots.map (·.2) }

/-- What `JSON.parse` of an import file yields, as far as
`importQRCodesFromBackup` inspects it: the parse threw (`parseError`), or it
produced a value whose `qrCodes` field either is an array of records
(`parsed (some _)`) or is missing / not an array (`parsed none`). -/
inductive BackupParse where
  | parseError
  | parsed (qrCodes : Option (List QRRecord))
deriving DecidableEq, Repr

/-- `JSON.parse ∘ JSON.stringify` on a well-formed export artifact is the
identity, so the file produced by `exportAllQRCodes` parses back to its
`qrCodes` array. -/
def parseBackup (e : ExportData) : BackupParse := .parsed (some e.qrCodes)

/-- JavaScript truthiness of a record's `id` field (`!qrData.id`): a missing
(`undefined`) id and the number `0` are falsy. -/
def jsFalsyId : Option Nat → Bool
  | none => true
  | some 0 => true
  | some (_ + 1) => false

/-- `DatabaseManager.importQRCodesFromBackup` (databaseManager.js:381-412):
a parse failure or a missing/non-array `qrCodes` field throws
(`Invalid backup file format`), is caught, and returns `0` with no write;
otherwise each record gets a fresh id when its own is falsy
(`Date.now() + Math.random()`, modelled by `fresh` applied to the iteration
index) and is written to its individual slot.  The `saved_codes` index key
is not touched. -/
def importQRCodesFromBackup (fresh : Nat → Nat) (b : BackupParse)
    (s : LocalStore) : Nat × LocalStore :=
  match b with
  | .parseError => (0, s)
  | .parsed none => (0, s)
  | .parsed (some recs) =>
    recs.foldl
      (fun acc qrData =>
        let qrData' :=
          if jsFalsyId qrData.id then { qrData with id := some (fresh acc.1) }
          else qrData
        (acc.1 + 1, { acc.2 with slots := setSlot qrData'.id qrData' acc.2.slots }))
      (0, s)

/-- A backup artifact is malformed when the file does not parse or the parsed
value is missing the `qrCodes` records list / it is not an array. -/
def malformedBackup : BackupParse → Prop
  | .parseError => True
  | .parsed none => True
  | .parsed (some _) => False

instance : DecidablePred malformedBackup := fun b => by
  cases b with
  | parseError => exact isTrue trivial
  | parsed q => cases q with
    | none => exact isTrue trivial
    | some _ => exact isFalse (fun h => h)

/-! ## Name generation and the save flow of `main.js` -/

/-- JavaScript `\w`: ASCII letters, digits and underscore. -/
def isWordChar (c : Char) : Bool := c.isAlphanum || c = '_'

/-- JavaScript `\s` restricted to the ASCII whitespace characters. -/
def isJsSpace (c : Char) : Bool :=
  c = ' ' || c = '\t' || c = '\n' || c = '\r' || c = '\x0b' || c = '\x0c'

/-- `String.prototype.replace(/\s+/g, '_')`: each maximal whitespace run
becomes a single underscore.  The flag records whether the previous
character belonged to a run already replaced. -/
def collapseSpacesAux : Bool → List Char → List Char
  | _, [] => []
  | inRun, c :: rest =>
    if isJsSpace c then
      if inRun then collapseSpacesAux true rest
      else '_' :: collapseSpacesAux true rest
    else c :: collapseSpacesAux false rest

/-- `replace(/\s+/g, '_')` on a character list. -/
def collapseSpaces (l : List Char) : List Char := collapseSpacesAux false l

/-- `QRCodeGenerator.generateQRName` (main.js:222-233): truncate the content
to 30 characters (appending `...`), delete every character that is not a
word character, whitespace or hyphen (`replace(/[^\w\s-]/g, '')`), replace
whitespace runs with underscores (`replace(/\s+/g, '_')`), and fall back to
`QR_Code_<Date.now()>` when the result is empty. -/
def generateQRName (now : Nat) (content : String) : String :=
  let base :=
    if content.length > 30 then String.mk (content.data.take 30) ++ "..."
    else content
  let kept := base.data.filter (fun c => isWordChar c || isJsSpace c || c = '-')
  let name := String.mk (collapseSpaces kept)
  if name = "" then "QR_Code_" ++ toString now else name

/-- The QR code currently held by the app (`this.currentQRCode` in
`main.js`), minus the canvas and encoder objects, which are DOM/library
handles outside the persisted state. -/
structure CurrentQR where
  content : String
  size : Nat
  errorCorrection : String
  foregroundColor : String
  backgroundColor : String
  timestamp : String
deriving DecidableEq, Repr

/-- The record object built by `QRCodeGenerator.saveQRCode` (main.js:188-220)
before it is handed to `saveQRCodeToDatabase`: `id` is `Date.now()` and
`name` is `generateQRName(content)`. -/
def mkQRData (now : Nat) (cur : CurrentQR) : QRRecord :=
  { id := some now
    content := cur.content
    size := cur.size
    errorCorrection := cur.errorCorrection
    foregroundColor := cur.foregroundColor
    backgroundColor := cur.backgroundColor
    timestamp := cur.timestamp
    name := generateQRName now cur.content }

/-- Modelled from the spec's own words for comparison (spec §8: a display
name "derived by truncating the content to 30 characters and replacing
non-word runs with underscores"): each maximal run of non-word characters
becomes a single underscore. -/
def collapseNonWordAux : Bool → List Char → List Char
  | _, [] => []
  | inRun, c :: rest =>
    if isWordChar c then c :: collapseNonWordAux false rest
    else if inRun then collapseNonWordAux true rest
    else '_' :: collapseNonWordAux true rest

/-- Modelled from the spec: the display-name derivation the spec describes —
truncate to 30 characters, then replace each non-word run with an
underscore.  Used only to compare the spec's wording with
`generateQRName`. -/
def specDisplayName (content : String) : String :=
  String.mk (collapseNonWordAux false (content.data.take 30))

/-! ## Helper lemmas about the store operations -/

lemma find?_setSlot (k : Option Nat) (v : QRRecord)
    (l : List (Option Nat × QRRecord)) :
    (setSlot k v l).find? (fun e => e.1 = k) = some (k, v) := by
  induction l with
  | nil => simp [setSlot]
  | cons hd tl ih =>
    obtain ⟨k', v'⟩ := hd
    by_cases hk : k' = k
    · simp [setSlot, hk]
    · rw [setSlot, if_neg hk]
      simp [List.find?, hk, ih]

lemma getSlot_after_save (qrData : QRRecord) (s : LocalStore) :
    getSlot qrData.id (saveQRCodeToLocalStorage qrData s).2 = some qrData := by
  simp [getSlot, saveQRCodeToLocalStorage, find?_setSlot]

lemma import_preserves_savedCodes (fresh : Nat → Nat) (b : BackupParse)
    (s : LocalStore) :
    (importQRCodesFromBackup fresh b s).2.savedCodes = s.savedCodes := by
  cases b with
  | parseError => rfl
  | parsed q =>
    cases q with
    | none => rfl
    | some recs =>
      suffices h : ∀ acc : Nat × LocalStore,
          ((recs.foldl
            (fun acc qrData =>
              let qrData' :=
                if jsFalsyId qrData.id then { qrData with id := some (fresh acc.1) }
                else qrData
              (acc.1 + 1,
                { acc.2 with slots := setSlot qrData'.id qrData' acc.2.slots }))
            acc).2).savedCodes = acc.2.savedCodes by
        exact h (0, s)
      induction recs with
      | nil => intro acc; rfl
      | cons hd tl ih => intro acc; exact ih _

lemma delete_slots_filter (qid : Nat) (s : LocalStore) :
    (deleteQRCodeFromLocalStorage qid s).2.slots
      = s.slots.filter (fun e => e.1 ≠ some qid) := rfl

/-! ## The claims -/

/-- A concrete current-QR value used by witnesses: the spec §8 example
input. -/
def sampleCurrent : CurrentQR :=
  { content := "https://example.com"
    size := 256
    errorCorrection := "M"
    foregroundColor := "#000000"
    backgroundColor := "#ffffff"
    timestamp := "2024-01-15T10:30:00.000Z" }

/-- A concrete connected store with empty local contents, used by
witnesses. -/
def connectedEmptyStore : LocalStore :=
  { slots := [], savedCodes := none, token := some "simulated-github-token-x" }

/-- **C3.** `save` while `Disconnected` (no token) writes directly to local
storage; while `Connected`, any remote failure falls back to the local path,
and the overall result is exactly the local path's result — success when the
local write succeeds — with the record stored in its individual slot. -/
theorem save_falls_back_to_local (remote : RemoteOutcome) (qrData : QRRecord)
    (s : LocalStore) (h : remote = RemoteOutcome.failure ∨ s.token = none) :
    saveQRCodeToDatabase remote qrData s = saveQRCodeToLocalStorage qrData s ∧
    (saveQRCodeToDatabase remote qrData s).1 = true ∧
    getSlot qrData.id (saveQRCodeToDatabase remote qrData s).2 = some qrData := by
  have heq : saveQRCodeToDatabase remote qrData s
      = saveQRCodeToLocalStorage qrData s := by
    cases htok : s.token with
    | none => simp [saveQRCodeToDatabase, htok]
    | some t =>
      cases h with
      | inl hr => simp [saveQRCodeToDatabase, htok, hr]
      | inr hn => rw [htok] at hn; exact absurd hn (by simp)
  refine ⟨heq, ?_, ?_⟩
  · rw [heq]; rfl
  · rw [heq]; exact getSlot_after_save qrData s

/-- Witness for `save_falls_back_to_local`: a disconnected store and a
concrete record. -/
theorem save_falls_back_to_local_witness :
    saveQRCodeToDatabase RemoteOutcome.ok (mkQRData 1 sampleCurrent) emptyStore
      = saveQRCodeToLocalStorage (mkQRData 1 sampleCurrent) emptyStore ∧
    (saveQRCodeToDatabase RemoteOutcome.ok (mkQRData 1 sampleCurrent)
        emptyStore).1 = true ∧
    getSlot (mkQRData 1 sampleCurrent).id
        (saveQRCodeToDatabase RemoteOutcome.ok (mkQRData 1 sampleCurrent)
          emptyStore).2
      = some (mkQRData 1 sampleCurrent) :=
  save_falls_back_to_local RemoteOutcome.ok (mkQRData 1 sampleCurrent)
    emptyStore (Or.inr rfl)

/-- **C5.** A malformed backup artifact — unparsable, or missing the
`qrCodes` list, or with a non-array `qrCodes` — makes `importAll` return `0`
and write nothing: the store is unchanged. -/
theorem import_rejects_malformed (fresh : Nat → Nat) (b : BackupParse)
    (s : LocalStore) (h : malformedBackup b) :
    importQRCodesFromBackup fresh b s = (0, s) := by
  cases b with
  | parseError => rfl
  | parsed q =>
    cases q with
    | none => rfl
    | some recs => exact absurd h (by simp [malformedBackup])

/-- Witness for `import_rejects_malformed`: an unparsable file against the
empty store. -/
theorem import_rejects_malformed_witness :
    importQRCodesFromBackup (fun _ => 0) BackupParse.parseError emptyStore
      = (0, emptyStore) :=
  import_rejects_malformed (fun _ => 0) BackupParse.parseError emptyStore trivial

/-- **C6.** Deleting an id that is present in neither the slots nor the
index returns success and leaves the store exactly unchanged; and deletion
is idempotent on any store: deleting the same id twice gives the same
result and end state as deleting it once. -/
theorem delete_nonexistent_is_noop_success (qid : Nat) (s : LocalStore)
    (h1 : ∀ e ∈ s.slots, e.1 ≠ some qid)
    (h2 : ∀ c ∈ s.savedCodes.getD [], c.id ≠ some qid) :
    deleteQRCodeFromLocalStorage qid s = (true, s) ∧
    ∀ t : LocalStore,
      deleteQRCodeFromLocalStorage qid (deleteQRCodeFromLocalStorage qid t).2
        = deleteQRCodeFromLocalStorage qid t := by
  constructor
  · obtain ⟨slots, savedCodes, token⟩ := s
    have hslots : List.filter (fun e => !decide (e.1 = some qid)) slots
        = slots := by
      refine List.filter_eq_self.mpr ?_
      intro a ha
      simpa using h1 a ha
    cases savedCodes with
    | none => simp [deleteQRCodeFromLocalStorage, removeSlot, hslots]
    | some codes =>
      have hcodes : List.filter (fun c => !decide (c.id = some qid)) codes
          = codes := by
        refine List.filter_eq_self.mpr ?_
        intro a ha
        simpa using h2 a ha
      simp [deleteQRCodeFromLocalStorage, removeSlot, hslots, hcodes]
  · intro t
    obtain ⟨slots, savedCodes, token⟩ := t
    have hslots : List.filter (fun e => !decide (e.1 = some qid))
        (List.filter (fun e => !decide (e.1 = some qid)) slots)
        = List.filter (fun e => !decide (e.1 = some qid)) slots := by
      refine List.filter_eq_self.mpr ?_
      intro a ha
      exact (List.mem_filter.mp ha).2
    cases savedCodes with
    | none => simp [deleteQRCodeFromLocalStorage, removeSlot, hslots]
    | some codes =>
      have hcodes : List.filter (fun c => !decide (c.id = some qid))
          (List.filter (fun c => !decide (c.id = some qid)) codes)
          = List.filter (fun c => !decide (c.id = some qid)) codes := by
        refine List.filter_eq_self.mpr ?_
        intro a ha
        exact (List.mem_filter.mp ha).2
      simp [deleteQRCodeFromLocalStorage, removeSlot, hslots, hcodes]

/-- Witness for `delete_nonexistent_is_noop_success`: deleting id `5` from
the empty store. -/
theorem delete_nonexistent_is_noop_success_witness :
    deleteQRCodeFromLocalStorage 5 emptyStore = (true, emptyStore) ∧
    ∀ t : LocalStore,
      deleteQRCodeFromLocalStorage 5 (deleteQRCodeFromLocalStorage 5 t).2
        = deleteQRCodeFromLocalStorage 5 t :=
  delete_nonexistent_is_noop_success 5 emptyStore (by simp [emptyStore])
    (by simp [emptyStore])

/-- A concrete saved record for the round-trip scenario (one of the shapes
`loadAllQRCodesFromDatabase` itself produces). -/
def backupRecord : QRRecord :=
  { id := some 1001
    content := "https://example.com"
    size := 256
    errorCorrection := "M"
    foregroundColor := "#000000"
    backgroundColor := "#ffffff"
    timestamp := "2024-01-15T10:30:00.000Z"
    name := "Website_URL" }

/-- A non-empty local store holding `backupRecord` both in its individual
slot and in the `saved_codes` index, as `saveQRCodeToLocalStorage` leaves
it. -/
def backupStore : LocalStore :=
  { slots := [(some 1001, backupRecord)]
    savedCodes := some [backupRecord]
    token := none }

/-- **C2.** `importQRCodesFromBackup` never writes the `saved_codes` index
key — for every backup and store the index is left exactly as it was — so
restoring the artifact `exportAllQRCodes` produced from the non-empty
`backupStore` into a fresh (empty) store recreates the individual record
slot but leaves the restored index absent, while the original index listed
the record. -/
theorem import_never_restores_saved_codes_index :
    (∀ (fresh : Nat → Nat) (b : BackupParse) (s : LocalStore),
        (importQRCodesFromBackup fresh b s).2.savedCodes = s.savedCodes) ∧
    importQRCodesFromBackup (fun _ => 999)
        (parseBackup (exportAllQRCodes "2024-02-01T00:00:00.000Z" backupStore))
        emptyStore
      = (1, { slots := [(some 1001, backupRecord)], savedCodes := none,
              token := none }) ∧
    backupStore.savedCodes = some [backupRecord] :=
  ⟨import_preserves_savedCodes, by decide, rfl⟩

/-- **C10.** When connected and the remote write succeeds, `save` returns
success and leaves local storage entirely unchanged — no slot and no index
entry is written — so a subsequent `exportAll` does not include the record
(it was not locally stored before, and still is not). -/
theorem save_remote_success_writes_nothing_locally (qrData : QRRecord)
    (s : LocalStore) (now : String)
    (h1 : s.token.isSome)
    (h2 : ∀ e ∈ s.slots, e.2 ≠ qrData) :
    saveQRCodeToDatabase RemoteOutcome.ok qrData s = (true, s) ∧
    qrData ∉ (exportAllQRCodes now
        (saveQRCodeToDatabase RemoteOutcome.ok qrData s).2).qrCodes := by
  have heq : saveQRCodeToDatabase RemoteOutcome.ok qrData s = (true, s) := by
    cases htok : s.token with
    | none => rw [htok] at h1; exact absurd h1 (by simp)
    | some t => simp [saveQRCodeToDatabase, htok]
  refine ⟨heq, ?_⟩
  rw [heq]
  simp only [exportAllQRCodes, List.mem_map]
  rintro ⟨e, he, heq2⟩
  exact h2 e he heq2

/-- Witness for `save_remote_success_writes_nothing_locally`: a connected
store with empty local storage. -/
theorem save_remote_success_writes_nothing_locally_witness :
    saveQRCodeToDatabase RemoteOutcome.ok (mkQRData 1 sampleCurrent)
        connectedEmptyStore
      = (true, connectedEmptyStore) ∧
    (mkQRData 1 sampleCurrent)
      ∉ (exportAllQRCodes "2024-02-01"
          (saveQRCodeToDatabase RemoteOutcome.ok (mkQRData 1 sampleCurrent)
            connectedEmptyStore).2).qrCodes :=
  save_remote_success_writes_nothing_locally (mkQRData 1 sampleCurrent)
    connectedEmptyStore "2024-02-01"
    (by simp [connectedEmptyStore]) (by simp [connectedEmptyStore])

/-- **C4, counterexample.** For the content `"https://example.com"` the code
derives the display name `"httpsexamplecom"`: non-word characters such as
`:`, `/` and `.` are deleted outright (`replace(/[^\w\s-]/g, '')`), not
replaced with underscores, so the name differs from the
`"https_example_com"` the spec's derivation describes and contains no
underscore at all. -/
theorem generateQRName_deletes_nonword_chars :
    generateQRName 0 "https://example.com" = "httpsexamplecom" ∧
    specDisplayName "https://example.com" = "https_example_com" ∧
    generateQRName 0 "https://example.com"
      ≠ specDisplayName "https://example.com" ∧
    '_' ∉ (generateQRName 0 "https://example.com").data := by
  refine ⟨by decide, by decide, by decide, by decide⟩

/-- **C4, amended.** Saving the example record while `Disconnected` adds
exactly one new entry to the `saved_codes` index; its display name is
derived by truncating the content to 30 characters, deleting characters
that are neither word characters, whitespace nor hyphens, and replacing
whitespace runs with underscores — `"httpsexamplecom"` for this content —
and the record is retrievable unchanged from its slot by its id. -/
theorem save_disconnected_example_adds_one_entry (s : LocalStore) (qid : Nat)
    (cur : CurrentQR) (remote : RemoteOutcome)
    (htok : s.token = none)
    (hidx : ∀ c ∈ s.savedCodes.getD [], c.id ≠ some qid)
    (hcontent : cur.content = "https://example.com") :
    (saveQRCodeToDatabase remote (mkQRData qid cur) s).1 = true ∧
    (saveQRCodeToDatabase remote (mkQRData qid cur) s).2.savedCodes
      = some (s.savedCodes.getD [] ++ [mkQRData qid cur]) ∧
    (mkQRData qid cur).name = "httpsexamplecom" ∧
    getSlot (some qid) (saveQRCodeToDatabase remote (mkQRData qid cur) s).2
      = some (mkQRData qid cur) := by
  have hdb : saveQRCodeToDatabase remote (mkQRData qid cur) s
      = saveQRCodeToLocalStorage (mkQRData qid cur) s := by
    simp [saveQRCodeToDatabase, htok]
  have hname : (mkQRData qid cur).name = "httpsexamplecom" := by
    simp only [mkQRData, hcontent]
    rfl
  have hfind : (s.savedCodes.getD []).findIdx?
      (fun code => code.id = (mkQRData qid cur).id) = none := by
    rw [List.findIdx?_eq_none_iff]
    intro x hx
    have : x.id ≠ some qid := hidx x hx
    simpa [mkQRData] using this
  refine ⟨?_, ?_, hname, ?_⟩
  · rw [hdb]; rfl
  · rw [hdb]
    simp [saveQRCodeToLocalStorage, hfind]
  · rw [hdb]
    have := getSlot_after_save (mkQRData qid cur) s
    simpa [mkQRData] using this

/-- Witness for `save_disconnected_example_adds_one_entry`: the spec §8
example saved into the empty store. -/
theorem save_disconnected_example_adds_one_entry_witness :
    (saveQRCodeToDatabase RemoteOutcome.ok (mkQRData 1234 sampleCurrent)
        emptyStore).1 = true ∧
    (saveQRCodeToDatabase RemoteOutcome.ok (mkQRData 1234 sampleCurrent)
        emptyStore).2.savedCodes
      = some (emptyStore.savedCodes.getD [] ++ [mkQRData 1234 sampleCurrent]) ∧
    (mkQRData 1234 sampleCurrent).name = "httpsexamplecom" ∧
    getSlot (some 1234) (saveQRCodeToDatabase RemoteOutcome.ok
        (mkQRData 1234 sampleCurrent) emptyStore).2
      = some (mkQRData 1234 sampleCurrent) :=
  save_disconnected_example_adds_one_entry emptyStore 1234 sampleCurrent
    RemoteOutcome.ok rfl (by simp [emptyStore]) rfl

/-! ## The generation flow of `main.js` -/

/-- `String.prototype.trim()` restricted to ASCII whitespace. -/
def jsTrim (s : String) : String :=
  String.mk ((s.data.dropWhile isJsSpace).reverse.dropWhile isJsSpace).reverse

/-- The form fields `generateQRCode` reads, plus the app's current QR-code
state (`this.currentQRCode`). -/
structure UIState where
  contentInput : String
  sizeSelect : Nat
  errorCorrectionSelect : String
  foregroundColor : String
  backgroundColor : String
  currentQRCode : Option CurrentQR
deriving DecidableEq, Repr

/-- `QRCodeGenerator.generateQRCode` (main.js:77-153).  The external encoder
(`qrcode(0, ec)` / `addData` / `make`) is abstracted as `encode`, returning
`Except.error msg` when the library throws; canvas rasterization, preview
and button updates are DOM effects outside the claims' state.  Returns the
new app state together with the notifications emitted as (kind, message)
pairs. -/
def generateQRCode (encode : String → String → Except String Unit)
    (nowIso : String) (ui : UIState) : UIState × List (String × String) :=
  let content := jsTrim ui.contentInput
  if content = "" then
    (ui, [("error", "Please enter text or URL to generate QR code")])
  else
    match encode ui.errorCorrectionSelect content with
    | .error msg => (ui, [("error", "Error generating QR code: " ++ msg)])
    | .ok _ =>
      ({ ui with
          currentQRCode := some
            { content := content
              size := ui.sizeSelect
              errorCorrection := ui.errorCorrectionSelect
              foregroundColor := ui.foregroundColor
              backgroundColor := ui.backgroundColor
              timestamp := nowIso } },
        [("success", "QR code generated successfully!")])

/-- **C8.** When the content is empty after trimming, `generate` emits a
user-visible error notification and produces no artifact: the app state —
the current QR code and every form field, including the input — is returned
unchanged. -/
theorem generate_empty_input_is_rejected
    (encode : String → String → Except String Unit) (nowIso : String)
    (ui : UIState) (h : jsTrim ui.contentInput = "") :
    generateQRCode encode nowIso ui
      = (ui, [("error", "Please enter text or URL to generate QR code")]) := by
  simp [generateQRCode, h]

/-- Witness for `generate_empty_input_is_rejected`: whitespace-only input. -/
theorem generate_empty_input_is_rejected_witness :
    generateQRCode (fun _ _ => Except.ok ()) "2024-02-01T00:00:00.000Z"
        { contentInput := "   ", sizeSelect := 256,
          errorCorrectionSelect := "M", foregroundColor := "#000000",
          backgroundColor := "#ffffff", currentQRCode := none }
      = ({ contentInput := "   ", sizeSelect := 256,
            errorCorrectionSelect := "M", foregroundColor := "#000000",
            backgroundColor := "#ffffff", currentQRCode := none },
          [("error", "Please enter text or URL to generate QR code")]) :=
  generate_empty_input_is_rejected (fun _ _ => Except.ok ())
    "2024-02-01T00:00:00.000Z"
    { contentInput := "   ", sizeSelect := 256,
      errorCorrectionSelect := "M", foregroundColor := "#000000",
      backgroundColor := "#ffffff", currentQRCode := none }
    (by decide)

/-! ## The notification center of `export-manager.js` -/

/-- A record of the `notifications` map of `NotificationManager`: the
element's state (`shown` = has the `show` class), the pending auto-hide
timer (`autoHide = some ms`; `none` when cleared or never set), whether the
300 ms removal callback of `hide` is pending, and whether the record stores
a promise `resolve` function (confirmation entries). -/
structure NEntry where
  message : String
  kind : String
  shown : Bool
  autoHide : Option Nat
  removal : Bool
  hasResolve : Bool
deriving DecidableEq, Repr

/-- The notification registry (`this.notifications`) together with the
container's children (`this.container`), both in insertion order. -/
structure NotifSystem where
  notifs : List (Nat × NEntry)
  dom : List Nat
deriving DecidableEq, Repr

/-- The state right after `NotificationManager`'s constructor. -/
def emptyNotifSystem : NotifSystem := { notifs := [], dom := [] }

/-- `this.notifications.get(id)` (ids are unique `Date.now()+Math.random()`
tokens; the registry behaves as a map). -/
def findEntry (nid : Nat) (s : NotifSystem) : Option NEntry :=
  (s.notifs.find? (fun p => p.1 = nid)).map (·.2)

/-- `NotificationManager.show` (export-manager.js:193-237): append the
element, register the entry, and schedule auto-hide after
`duration || this.defaultDuration` — JavaScript `||`, so an omitted, `null`
or `0` duration falls back to the default.  The `show` animation class
arrives via a separate 100 ms timer (`showTick`). -/
def showNotification (nid : Nat) (message kind : String)
    (duration : Option Nat) (s : NotifSystem) : NotifSystem :=
  let durationMs :=
    match duration with
    | none => notificationDuration
    | some d => if d = 0 then notificationDuration else d
  { notifs := s.notifs ++ [(nid,
      { message := message, kind := kind, shown := false,
        autoHide := some durationMs, removal := false, hasResolve := false })]
    dom := s.dom ++ [nid] }

/-- The 100 ms timer of `show` adding the `show` class. -/
def showTick (nid : Nat) (s : NotifSystem) : NotifSystem :=
  { s with
    notifs := s.notifs.map
      (fun p => if p.1 = nid then (p.1, { p.2 with shown := true }) else p) }

/-- What `NotificationManager.hide` does to a found record: clear the
auto-hide timer, drop the `show` class, and schedule the 300 ms removal. -/
def hideEntry (e : NEntry) : NEntry :=
  { e with shown := false, autoHide := none, removal := true }

/-- `NotificationManager.hide` (export-manager.js:243-264): an unknown id is
a no-op; otherwise the pending timer is cleared, the exit transition starts,
and removal of the element and registry record is left to a 300 ms callback
(`removalTick`). -/
def hide (nid : Nat) (s : NotifSystem) : NotifSystem :=
  match findEntry nid s with
  | none => s
  | some _ =>
    { s with
      notifs := s.notifs.map
        (fun p => if p.1 = nid then (p.1, hideEntry p.2) else p) }

/-- The 300 ms callback scheduled by `hide` firing: remove the element from
the container (guarded by `element.parentNode`) and delete the registry
record. -/
def removalTick (nid : Nat) (s : NotifSystem) : NotifSystem :=
  match findEntry nid s with
  | none => s
  | some e =>
    if e.removal then
      { notifs := s.notifs.filter (fun p => p.1 ≠ nid)
        dom := s.dom.filter (fun i => i ≠ nid) }
    else s

/-- The auto-hide timer scheduled by `show` firing: its callback is
`this.hide(notificationId)`.  A cleared timer (`autoHide = none`) never
fires. -/
def autoHideTick (nid : Nat) (s : NotifSystem) : NotifSystem :=
  match findEntry nid s with
  | none => s
  | some e => if e.autoHide.isSome then hide nid s else s

/-- `NotificationManager.loading` (export-manager.js:335-360): shows an
`info` notification with duration `null`, which `show` turns into the
default duration, and returns a handle closing over the id. -/
def loading (nid : Nat) (message : String) (s : NotifSystem) : NotifSystem :=
  showNotification nid message "info" none s

/-- The `success` member of the `loading` handle: hide the loading
notification, then show a terminal success notification. -/
def loadingSuccess (nid newId : Nat) (message : String) (s : NotifSystem) :
    NotifSystem :=
  showNotification newId message "success" none (hide nid s)

/-- The `error` member of the `loading` handle: hide the loading
notification, then show a terminal error notification. -/
def loadingError (nid newId : Nat) (message : String) (s : NotifSystem) :
    NotifSystem :=
  showNotification newId message "error" none (hide nid s)

/-! ## The confirmation flow -/

/-- The registry record `confirm` creates (export-manager.js:377-463): no
auto-hide timer is registered (`timeout: null` — the 10-second auto-cancel
is a separate timer), and the promise's `resolve` function is stored on the
record immediately after registration. -/
def confirmEntry (message kind : String) : NEntry :=
  { message := message, kind := kind, shown := false, autoHide := none,
    removal := false, hasResolve := true }

/-- The state of one `confirm(message, options)` call: the registry together
with the single-assignment result cell of the promise returned to the
caller. -/
structure ConfirmRun where
  sys : NotifSystem
  cell : Option Bool
deriving DecidableEq, Repr

/-- JavaScript promise resolution is single-assignment: calling `resolve` on
an already-settled promise leaves its value unchanged. -/
def resolveOnce (cell : Option Bool) (result : Bool) : Option Bool :=
  match cell with
  | none => some result
  | some v => some v

/-- The state right after `NotificationManager.confirm`
(export-manager.js:368-473) has returned its promise: the confirmation
notification is registered and the promise is pending. -/
def confirmInit (nid : Nat) (message kind : String) (s : NotifSystem) :
    ConfirmRun :=
  { sys := { notifs := s.notifs ++ [(nid, confirmEntry message kind)]
             dom := s.dom ++ [nid] }
    cell := none }

/-- `NotificationManager.handleConfirm` (export-manager.js:480-493): an
unknown id is ignored; otherwise the stored `resolve` (when present) is
called — settling the promise only if it is still pending — and the
notification is hidden. -/
def handleConfirm (nid : Nat) (result : Bool) (st : ConfirmRun) : ConfirmRun :=
  match findEntry nid st.sys with
  | none => st
  | some e =>
    { sys := hide nid st.sys
      cell := if e.hasResolve then resolveOnce st.cell result else st.cell }

/-- The events that can fire on a pending confirmation: the confirm button
(`handleConfirm(id, true)`), the cancel button (`handleConfirm(id, false)`),
the 10-second auto-cancel timer (export-manager.js:467-471, which calls
`handleConfirm(id, false)` only while the id is still registered), and a
pending 300 ms removal callback of `hide`. -/
inductive CEvent where
  | confirmClick
  | cancelClick
  | autoCancel
  | removalFires
deriving DecidableEq, Repr

/-- One event firing on the confirmation `nid`. -/
def applyCEvent (nid : Nat) (st : ConfirmRun) : CEvent → ConfirmRun
  | .confirmClick => handleConfirm nid true st
  | .cancelClick => handleConfirm nid false st
  | .autoCancel =>
    if (findEntry nid st.sys).isSome then handleConfirm nid false st else st
  | .removalFires => { st with sys := removalTick nid st.sys }

/-- The boolean a trigger resolves the confirmation with; a removal callback
is not a resolution trigger. -/
def triggerValue : CEvent → Option Bool
  | .confirmClick => some true
  | .cancelClick => some false
  | .autoCancel => some false
  | .removalFires => none

/-! ## Helper lemmas about the registry -/

lemma find?_key_append_self (nid : Nat) (e : NEntry)
    (l : List (Nat × NEntry)) (h : l.find? (fun p => p.1 = nid) = none) :
    (l ++ [(nid, e)]).find? (fun p => p.1 = nid) = some (nid, e) := by
  rw [List.find?_append, h]
  simp

lemma find?_key_map_update (a b : Nat) (f : NEntry → NEntry)
    (l : List (Nat × NEntry)) :
    (l.map (fun p => if p.1 = b then (p.1, f p.2) else p)).find?
        (fun p => p.1 = a)
      = (l.find? (fun p => p.1 = a)).map
          (fun p => if p.1 = b then (p.1, f p.2) else p) := by
  induction l with
  | nil => rfl
  | cons hd tl ih =>
    have hkey : ((if hd.1 = b then (hd.1, f hd.2) else hd) : Nat × NEntry).1
        = hd.1 := by
      by_cases hb : hd.1 = b <;> simp [hb]
    by_cases hk : hd.1 = a
    · rw [List.map_cons,
        List.find?_cons_of_pos _ (by simp only [hkey]; simp [hk]),
        List.find?_cons_of_pos _ (by simp [hk])]
      rfl
    · rw [List.map_cons,
        List.find?_cons_of_neg _ (by simp only [hkey]; simp [hk]),
        List.find?_cons_of_neg _ (by simp [hk])]
      exact ih

lemma hideEntry_idem (e : NEntry) : hideEntry (hideEntry e) = hideEntry e := rfl

lemma findEntry_hide (nid : Nat) (s : NotifSystem) :
    findEntry nid (hide nid s) = (findEntry nid s).map hideEntry := by
  cases hf : findEntry nid s with
  | none => simp [hide, hf]
  | some e =>
    obtain ⟨q, hq, hq2⟩ := Option.map_eq_some'.mp hf
    have hq1 : q.1 = nid := by simpa using List.find?_some hq
    simp only [hide]
    rw [hf]
    simp only [findEntry]
    rw [find?_key_map_update, hq]
    simp [hq1, hq2]

lemma findEntry_hide_ne (a b : Nat) (t : NotifSystem)
    (h : findEntry a t = none) : findEntry a (hide b t) = none := by
  cases hf : findEntry b t with
  | none => simp [hide, hf, h]
  | some e =>
    have hq : t.notifs.find? (fun p => p.1 = a) = none := by
      simpa [findEntry] using h
    simp only [hide]
    rw [hf]
    simp only [findEntry]
    rw [find?_key_map_update, hq]
    rfl

lemma findEntry_show_fresh (nid : Nat) (msg kind : String) (d : Option Nat)
    (s : NotifSystem) (h : findEntry nid s = none) :
    findEntry nid (showNotification nid msg kind d s)
      = some { message := msg, kind := kind, shown := false,
               autoHide := some (match d with
                 | none => notificationDuration
                 | some v => if v = 0 then notificationDuration else v),
               removal := false, hasResolve := false } := by
  have hq : s.notifs.find? (fun p => p.1 = nid) = none := by
    simpa [findEntry] using h
  simp [showNotification, findEntry, find?_key_append_self _ _ _ hq]

lemma findEntry_show_ne (nid newId : Nat) (msg kind : String)
    (d : Option Nat) (s : NotifSystem) (h : newId ≠ nid) :
    findEntry nid (showNotification newId msg kind d s) = findEntry nid s := by
  cases hf : s.notifs.find? (fun p => p.1 = nid) with
  | none => simp [showNotification, findEntry, List.find?_append, hf, h]
  | some q => simp [showNotification, findEntry, List.find?_append, hf]

lemma hide_hide (nid : Nat) (t : NotifSystem) :
    hide nid (hide nid t) = hide nid t := by
  cases hf : findEntry nid t with
  | none =>
    have h1 : hide nid t = t := by simp [hide, hf]
    rw [h1, h1]
  | some e =>
    have h2 : findEntry nid (hide nid t) = some (hideEntry e) := by
      rw [findEntry_hide, hf]; rfl
    have h1 : hide nid t
        = { t with
            notifs := t.notifs.map
              (fun p => if p.1 = nid then (p.1, hideEntry p.2) else p) } := by
      simp [hide, hf]
    conv_lhs => rw [hide, h2]
    rw [h1]
    simp only [List.map_map]
    congr 1
    apply List.map_congr_left
    intro p _
    by_cases hk : p.1 = nid
    · simp [Function.comp, hk, hideEntry_idem]
    · simp [Function.comp, hk]

/-- **C7.** `dismiss` (`hide`) is idempotent: an unknown id is a no-op, and
dismissing the same id twice — which can happen within the 300 ms removal
delay — produces exactly the same registry state as dismissing it once, on
every registry. -/
theorem dismiss_is_idempotent (nid : Nat) (s : NotifSystem)
    (h : findEntry nid s = none) :
    hide nid s = s ∧
    ∀ t : NotifSystem, hide nid (hide nid t) = hide nid t := by
  refine ⟨by simp [hide, h], hide_hide nid⟩

/-- Witness for `dismiss_is_idempotent`: dismissing the unknown id `5` on
the empty registry. -/
theorem dismiss_is_idempotent_witness :
    hide 5 emptyNotifSystem = emptyNotifSystem ∧
    ∀ t : NotifSystem, hide 5 (hide 5 t) = hide 5 t :=
  dismiss_is_idempotent 5 emptyNotifSystem (by decide)

/-- **C9, counterexample.** The notification created by `loading` carries a
pending auto-hide timer with the default duration — `show(message, 'info',
null)` turns `null` into `defaultDuration` via `duration || 3000` — and
when that timer and the subsequent removal callback fire, the notification
is removed with neither `resolveSuccess` nor `resolveError` ever called. -/
theorem loading_notification_is_auto_removed :
    findEntry 1 (loading 1 "Loading" emptyNotifSystem)
      = some { message := "Loading", kind := "info", shown := false,
               autoHide := some notificationDuration, removal := false,
               hasResolve := false } ∧
    findEntry 1
        (removalTick 1 (autoHideTick 1 (loading 1 "Loading" emptyNotifSystem)))
      = none := by
  exact ⟨by decide, by decide⟩

/-- **C9, amended.** A notification created by the loading variant is not
persistent: it is registered with a pending auto-hide timer of the default
duration, exactly like an ordinary notification.  While it is still
present, `resolveSuccess` replaces it with a terminal notification:
it dismisses the loading notification (clearing its timer and scheduling
its removal) and shows a new `success` notification. -/
theorem loading_has_default_timer_and_resolves (nid newId : Nat)
    (msg msg2 : String) (s : NotifSystem)
    (h1 : findEntry nid s = none) (h2 : findEntry newId s = none)
    (h3 : newId ≠ nid) :
    findEntry nid (loading nid msg s)
      = some { message := msg, kind := "info", shown := false,
               autoHide := some notificationDuration, removal := false,
               hasResolve := false } ∧
    findEntry nid (loadingSuccess nid newId msg2 (loading nid msg s))
      = some (hideEntry
          { message := msg, kind := "info", shown := false,
            autoHide := some notificationDuration, removal := false,
            hasResolve := false }) ∧
    findEntry newId (loadingSuccess nid newId msg2 (loading nid msg s))
      = some { message := msg2, kind := "success", shown := false,
               autoHide := some notificationDuration, removal := false,
               hasResolve := false } := by
  have ha : findEntry nid (loading nid msg s)
      = some { message := msg, kind := "info", shown := false,
               autoHide := some notificationDuration, removal := false,
               hasResolve := false } := by
    simpa using findEntry_show_fresh nid msg "info" none s h1
  refine ⟨ha, ?_, ?_⟩
  · rw [loadingSuccess, findEntry_show_ne _ _ _ _ _ _ h3, findEntry_hide, ha]
    rfl
  · have hs1 : findEntry newId (loading nid msg s) = none := by
      rw [loading, findEntry_show_ne _ _ _ _ _ _ (Ne.symm h3)]
      exact h2
    have hs2 : findEntry newId (hide nid (loading nid msg s)) = none :=
      findEntry_hide_ne newId nid _ hs1
    rw [loadingSuccess]
    simpa using findEntry_show_fresh newId msg2 "success" none _ hs2

/-- Witness for `loading_has_default_timer_and_resolves`: a loading
notification with id `1` resolved by a success notification with id `2` on
the empty registry. -/
theorem loading_has_default_timer_and_resolves_witness :
    findEntry 1 (loading 1 "Exporting" emptyNotifSystem)
      = some { message := "Exporting", kind := "info", shown := false,
               autoHide := some notificationDuration, removal := false,
               hasResolve := false } ∧
    findEntry 1 (loadingSuccess 1 2 "Done" (loading 1 "Exporting" emptyNotifSystem))
      = some (hideEntry
          { message := "Exporting", kind := "info", shown := false,
            autoHide := some notificationDuration, removal := false,
            hasResolve := false }) ∧
    findEntry 2 (loadingSuccess 1 2 "Done" (loading 1 "Exporting" emptyNotifSystem))
      = some { message := "Done", kind := "success", shown := false,
               autoHide := some notificationDuration, removal := false,
               hasResolve := false } :=
  loading_has_default_timer_and_resolves 1 2 "Exporting" "Done"
    emptyNotifSystem (by decide) (by decide) (by decide)

/-! ## The confirmation resolves exactly once -/

lemma handleConfirm_cell_settled (nid : Nat) (r : Bool) (v : Bool)
    (st : ConfirmRun) (h : st.cell = some v) :
    (handleConfirm nid r st).cell = some v := by
  cases hf : findEntry nid st.sys with
  | none => simp [handleConfirm, hf, h]
  | some e => simp [handleConfirm, hf, h, resolveOnce]

lemma applyCEvent_cell_settled (nid : Nat) (v : Bool) (e : CEvent)
    (st : ConfirmRun) (h : st.cell = some v) :
    (applyCEvent nid st e).cell = some v := by
  cases e with
  | confirmClick => exact handleConfirm_cell_settled nid true v st h
  | cancelClick => exact handleConfirm_cell_settled nid false v st h
  | autoCancel =>
    by_cases hf : (findEntry nid st.sys).isSome
    · simpa [applyCEvent, hf] using handleConfirm_cell_settled nid false v st h
    · simpa [applyCEvent, hf] using h
  | removalFires => simpa [applyCEvent] using h

lemma foldl_cell_settled (nid : Nat) (v : Bool) :
    ∀ (events : List CEvent) (st : ConfirmRun), st.cell = some v →
      (events.foldl (applyCEvent nid) st).cell = some v := by
  intro events
  induction events with
  | nil => intro st h; exact h
  | cons e rest ih =>
    intro st h
    exact ih _ (applyCEvent_cell_settled nid v e st h)

lemma confirm_foldl_cell (nid : Nat) (message kind : String) :
    ∀ (events : List CEvent) (st : ConfirmRun),
      findEntry nid st.sys = some (confirmEntry message kind) →
      st.cell = none →
      (events.foldl (applyCEvent nid) st).cell
        = events.findSome? triggerValue := by
  intro events
  induction events with
  | nil => intro st _ hc; simpa using hc
  | cons e rest ih =>
    intro st hf hc
    cases e with
    | confirmClick =>
      have hstep : (applyCEvent nid st .confirmClick).cell = some true := by
        simp [applyCEvent, handleConfirm, hf, hc, resolveOnce, confirmEntry]
      rw [List.foldl_cons]
      have hrhs : (CEvent.confirmClick :: rest).findSome? triggerValue
          = some true := by
        simp [List.findSome?_cons, triggerValue]
      rw [hrhs]
      exact foldl_cell_settled nid true rest _ hstep
    | cancelClick =>
      have hstep : (applyCEvent nid st .cancelClick).cell = some false := by
        simp [applyCEvent, handleConfirm, hf, hc, resolveOnce, confirmEntry]
      rw [List.foldl_cons]
      have hrhs : (CEvent.cancelClick :: rest).findSome? triggerValue
          = some false := by
        simp [List.findSome?_cons, triggerValue]
      rw [hrhs]
      exact foldl_cell_settled nid false rest _ hstep
    | autoCancel =>
      have hstep : (applyCEvent nid st .autoCancel).cell = some false := by
        simp [applyCEvent, handleConfirm, hf, hc, resolveOnce, confirmEntry]
      rw [List.foldl_cons]
      have hrhs : (CEvent.autoCancel :: rest).findSome? triggerValue
          = some false := by
        simp [List.findSome?_cons, triggerValue]
      rw [hrhs]
      exact foldl_cell_settled nid false rest _ hstep
    | removalFires =>
      have hstep : applyCEvent nid st .removalFires = st := by
        have hrt : removalTick nid st.sys = st.sys := by
          simp [removalTick, hf, confirmEntry]
        simp [applyCEvent, hrt]
      rw [List.foldl_cons, hstep]
      have hrhs : (CEvent.removalFires :: rest).findSome? triggerValue
          = rest.findSome? triggerValue := by
        simp [List.findSome?_cons, triggerValue]
      rw [hrhs]
      exact ih st hf hc

/-- **C1.** For a freshly created confirmation, whatever sequence of events
fires afterwards — confirm clicks, cancel clicks, the 10-second auto-cancel,
pending removal callbacks, in any order and any number — the promise's
result cell ends up holding exactly the value of the first resolution
trigger (`true` for confirm, `false` for cancel or timeout), and remains
pending only if no trigger ever fires: later triggers have no effect on the
result. -/
theorem confirm_resolves_exactly_once (nid : Nat) (message kind : String)
    (s : NotifSystem) (events : List CEvent)
    (h : findEntry nid s = none) :
    (events.foldl (applyCEvent nid) (confirmInit nid message kind s)).cell
      = events.findSome? triggerValue := by
  refine confirm_foldl_cell nid message kind events _ ?_ rfl
  have hq : s.notifs.find? (fun p => p.1 = nid) = none := by
    simpa [findEntry] using h
  simp [confirmInit, findEntry, find?_key_append_self _ _ _ hq]

/-- Witness for `confirm_resolves_exactly_once`: the cancel click fires
first, then a confirm click and a removal callback; the promise resolves to
`false` and the later confirm click does not change it. -/
theorem confirm_resolves_exactly_once_witness :
    (([CEvent.cancelClick, CEvent.confirmClick, CEvent.removalFires].foldl
        (applyCEvent 1)
        (confirmInit 1 "Are you sure you want to delete this QR code?" "info"
          emptyNotifSystem)).cell)
      = some false :=
  (confirm_resolves_exactly_once 1
    "Are you sure you want to delete this QR code?" "info" emptyNotifSystem
    [CEvent.cancelClick, CEvent.confirmClick, CEvent.removalFires]
    (by decide)).trans (by decide)

end PixelQR
